import Mathlib

/-
  Shallow embedding of the river status client (src/src/main.rs).

  The program aggregates compositor state events into a `State` value,
  waits until the aggregate passes a completeness-and-dirtiness gate,
  projects it to a `Metadata` snapshot, truncates the tag vectors to the
  configured tag count, and prints the snapshot (once, or repeatedly in
  watch mode).
-/

namespace Flow

/-- Bits of a u32 payload in Lsb0 order, as produced by
`tags.view_bits().to_bitvec()` on a `u32`: a list of 32 booleans where
position `i` holds bit `i`. -/
def u32ToBits (tags : Nat) : List Bool :=
  (List.range 32).map tags.testBit

/-- The aggregate state (struct `State` in main.rs).  Bound protocol handles
are modelled by the numeric `name` of the global advertisement that was
bound, since the only observable identity of a handle in this program is
which advertisement produced it. -/
structure State where
  status_manager : Option Nat
  seat : Option Nat
  output : Option Nat
  changed : Bool
  title : Option String
  mode : Option String
  layout : Option String
  focused : Option (List Bool)
  urgent : Option (List Bool)
deriving DecidableEq

/-- The state `main` starts with: `State { changed: true, ..Default }`. -/
def initialState : State :=
  ⟨none, none, none, true, none, none, none, none, none⟩

/-- The public snapshot (struct `Metadata` in main.rs). -/
structure Metadata where
  title : String
  mode : String
  layout : Option String
  urgent : List Bool
  focused : List Bool
deriving DecidableEq

/-- The error enum of the aggregate-to-snapshot conversion. -/
inductive Err where
  | missingTitle
  | missingMode
  | missingUrgent
  | missingFocused
deriving DecidableEq

/-- Events of a `zriver_output_status_v1` object.  `other` stands for the
event kinds the wildcard arm of the `match` ignores (e.g. `view_tags`). -/
inductive OutputEvent where
  | focusedTags (tags : Nat)
  | urgentTags (tags : Nat)
  | layoutName (name : String)
  | layoutNameClear
  | other
deriving DecidableEq

/-- Events of a `zriver_seat_status_v1` object.  `other` stands for the
event kinds the wildcard arm ignores (e.g. `focused_output`). -/
inductive SeatEvent where
  | focusedView (title : String)
  | mode (name : String)
  | other
deriving DecidableEq

/-- Dispatch for output-status events (main.rs lines 106-127): the match
updates at most one field, and `state.changed = true` runs afterwards
unconditionally. -/
def handleOutputEvent (s : State) (e : OutputEvent) : State :=
  let s1 :=
    match e with
    | .focusedTags tags => { s with focused := some (u32ToBits tags) }
    | .urgentTags tags => { s with urgent := some (u32ToBits tags) }
    | .layoutName nm => { s with layout := some nm }
    | .layoutNameClear => { s with layout := none }
    | .other => s
  { s1 with changed := true }

/-- Dispatch for seat-status events (main.rs lines 129-147). -/
def handleSeatEvent (s : State) (e : SeatEvent) : State :=
  let s1 :=
    match e with
    | .focusedView t => { s with title := some t }
    | .mode nm => { s with mode := some nm }
    | .other => s
  { s1 with changed := true }

/-- A registry global advertisement. -/
structure Advert where
  name : Nat
  interface : String
deriving DecidableEq

/-- A request the binder issues against the status manager: creation of a
seat-status or output-status object for the given handle. -/
inductive Request where
  | createSeatStatus (seat : Nat)
  | createOutputStatus (output : Nat)
deriving DecidableEq

/-- Dispatch for registry `Global` events (main.rs lines 149-199).  Returns
the new state together with the list of status-object-creation requests
issued during the event (in order). -/
def handleRegistry (s : State) (a : Advert) : State × List Request :=
  if a.interface = "wl_output" then
    let reqs :=
      match s.status_manager with
      | some _ => [Request.createOutputStatus a.name]
      | none => []
    ({ s with output := some a.name }, reqs)
  else if a.interface = "wl_seat" then
    let reqs :=
      match s.status_manager with
      | some _ => [Request.createSeatStatus a.name]
      | none => []
    ({ s with seat := some a.name }, reqs)
  else if a.interface = "zriver_status_manager_v1" then
    let reqs :=
      match s.seat with
      | some se => [Request.createSeatStatus se]
      | none => []
    ({ s with status_manager := some a.name }, reqs)
  else
    (s, [])

/-- Run a sequence of advertisements through the binder from the initial
state, accumulating all issued requests. -/
def runAdverts (l : List Advert) : State × List Request :=
  l.foldl
    (fun acc a =>
      let r := handleRegistry acc.1 a
      (r.1, acc.2 ++ r.2))
    (initialState, [])

/-- Number of seat-status creation requests in a request list. -/
def countSeatReqs (rs : List Request) : Nat :=
  (rs.filter fun r => match r with | .createSeatStatus _ => true | _ => false).length

/-- Number of output-status creation requests in a request list. -/
def countOutputReqs (rs : List Request) : Nat :=
  (rs.filter fun r => match r with | .createOutputStatus _ => true | _ => false).length

/-- The `TryInto<Metadata>` conversion (main.rs lines 84-104): fails with the
first missing required field, in source order title, mode, urgent, focused;
layout is copied through as an `Option`. -/
def tryIntoMetadata (s : State) : Except Err Metadata :=
  match s.title with
  | none => .error .missingTitle
  | some t =>
    match s.mode with
    | none => .error .missingMode
    | some m =>
      match s.urgent with
      | none => .error .missingUrgent
      | some u =>
        match s.focused with
        | none => .error .missingFocused
        | some f => .ok ⟨t, m, s.layout, u, f⟩

/-- The truncation main applies to the snapshot before emitting:
`metadata.urgent.truncate(tags)` and `metadata.focused.truncate(tags)`. -/
def truncateMeta (n : Nat) (m : Metadata) : Metadata :=
  { m with urgent := m.urgent.take n, focused := m.focused.take n }

/-- The condition of the inner waiting loop (main.rs lines 216-221): the loop
keeps dispatching while any of the five aggregate fields is unset or the
dirty flag is clear.  Note that `layout` IS among the checked fields. -/
def gateBlocked (s : State) : Bool :=
  s.title.isNone || s.mode.isNone || s.layout.isNone ||
    s.focused.isNone || s.urgent.isNone || !s.changed

/-- Any event deliverable to the event queue: a registry advertisement, an
output-status event, or a seat-status event. -/
inductive Ev where
  | reg (a : Advert)
  | out (e : OutputEvent)
  | seat (e : SeatEvent)
deriving DecidableEq

/-- Dispatching one event mutates the state (binder requests do not feed back
into the aggregate fields, so they are dropped here). -/
def applyEv (s : State) (e : Ev) : State :=
  match e with
  | .reg a => (handleRegistry s a).1
  | .out e => handleOutputEvent s e
  | .seat e => handleSeatEvent s e

/-- One `blocking_dispatch` round delivers a batch of events in order. -/
def applyBatch (s : State) (b : List Ev) : State :=
  b.foldl applyEv s

/-- The inner waiting loop: while the gate blocks, perform one blocking
dispatch round.  The input is the stream of future dispatch rounds; `none`
models blocking forever (the stream ran out while the gate still blocks). -/
def waitLoop : State → List (List Ev) → Option (State × List (List Ev))
  | s, [] => if gateBlocked s then none else some (s, [])
  | s, b :: rest =>
      if gateBlocked s then waitLoop (applyBatch s b) rest
      else some (s, b :: rest)

/-- The publication loop of `main` (lines 215-238), parameterised by fuel for
the watch-mode recursion: wait for the gate, project the aggregate
(`try_into().unwrap()`, `none` models the panic), truncate, emit if dirty and
clear the dirty flag, then break unless in watch mode.  Returns the list of
emitted snapshots when the loop terminates, `none` when it blocks forever,
panics, or the fuel runs out. -/
def pubLoop : Nat → Bool → Nat → State → List (List Ev) → Option (List Metadata)
  | 0, _, _, _, _ => none
  | fuel + 1, watch, n, s, bs =>
    match waitLoop s bs with
    | none => none
    | some (s1, rest) =>
      match tryIntoMetadata s1 with
      | .error _ => none
      | .ok m0 =>
        let m := truncateMeta n m0
        let emitted := if s1.changed then [m] else []
        let s2 := if s1.changed then { s1 with changed := false } else s1
        if watch then
          match pubLoop fuel watch n s2 rest with
          | none => none
          | some out => some (emitted ++ out)
        else
          some emitted

/-- The four completeness-relevant aggregate fields (title, mode,
focusedTags, urgentTags) are all set. -/
def complete4 (s : State) : Bool :=
  s.title.isSome && s.mode.isSome && s.focused.isSome && s.urgent.isSome

/-- Advertisement of the status manager under global name `n`. -/
def advM (n : Nat) : Advert := ⟨n, "zriver_status_manager_v1"⟩

/-- Advertisement of the seat under global name `n`. -/
def advS (n : Nat) : Advert := ⟨n, "wl_seat"⟩

/-- Advertisement of the output under global name `n`. -/
def advO (n : Nat) : Advert := ⟨n, "wl_output"⟩

/-- All three capabilities are bound to the advertised names. -/
def capsOk (m s o : Nat) (st : State) : Prop :=
  st.status_manager = some m ∧ st.seat = some s ∧ st.output = some o

/-- Outcome of feeding an advertisement order to the binder: final
capabilities all bound, exactly one seat-status request, and `k`
output-status requests. -/
def binderOutcome (m s o : Nat) (l : List Advert) (k : Nat) : Prop :=
  capsOk m s o (runAdverts l).1 ∧ countSeatReqs (runAdverts l).2 = 1 ∧
    countOutputReqs (runAdverts l).2 = k

/-- State with title, mode, focusedTags and urgentTags all set, dirty set,
but layout never set. -/
def c1state : State :=
  ⟨none, none, none, true, some "w", some "normal", none,
   some (u32ToBits 1), some (u32ToBits 0)⟩

/-- A fully set, dirty aggregate state, with layout set. -/
def c4state : State :=
  ⟨none, none, none, true, some "w", some "normal", some "rivertile",
   some (u32ToBits 1), some (u32ToBits 0)⟩

/-- A complete aggregate whose focused bit-set is that of the u32 value 5 and
whose urgent bit-set is that of the u32 value 2. -/
def c5state : State :=
  ⟨none, none, none, true, some "w", some "normal", some "rivertile",
   some (u32ToBits 5), some (u32ToBits 2)⟩

/-- The snapshot the conversion produces from `c5state`. -/
def c5meta : Metadata :=
  ⟨"w", "normal", some "rivertile", u32ToBits 2, u32ToBits 5⟩

/-- A fully set, dirty aggregate state. -/
def c7state : State :=
  ⟨none, none, none, true, some "w", some "normal", some "rivertile",
   some (u32ToBits 3), some (u32ToBits 0)⟩

/-- A dispatch round carrying one event for each gated field. -/
def c8batch : List Ev :=
  [Ev.seat (SeatEvent.focusedView "t"), Ev.seat (SeatEvent.mode "m"),
   Ev.out (OutputEvent.layoutName "l"), Ev.out (OutputEvent.focusedTags 1),
   Ev.out (OutputEvent.urgentTags 0)]

/-- The single snapshot a one-shot run over `c8batch` emits (tag count 9). -/
def c8out : List Metadata :=
  [⟨"t", "m", some "l", (u32ToBits 0).take 9, (u32ToBits 1).take 9⟩]

/-! ## Helper lemmas -/

/-- When the waiting loop's condition is false, all five gated fields are set
and the dirty flag is true. -/
theorem gate_false_fields (s : State) (h : gateBlocked s = false) :
    s.title.isSome = true ∧ s.mode.isSome = true ∧ s.layout.isSome = true ∧
    s.focused.isSome = true ∧ s.urgent.isSome = true ∧ s.changed = true := by
  rcases s with ⟨sm, se, o, ch, t, mo, la, f, u⟩
  cases t <;> cases mo <;> cases la <;> cases f <;> cases u <;> cases ch <;>
    simp_all [gateBlocked]

/-- The aggregate-to-snapshot conversion succeeds whenever the four required
fields are set. -/
theorem tryIntoMetadata_ok (s : State) (ht : s.title.isSome = true)
    (hmo : s.mode.isSome = true) (hu : s.urgent.isSome = true)
    (hf : s.focused.isSome = true) : (tryIntoMetadata s).isOk = true := by
  rcases s with ⟨sm, se, o, ch, t, mo, la, f, u⟩
  cases t <;> cases mo <;> cases u <;> cases f <;>
    simp_all [tryIntoMetadata, Except.isOk, Except.toBool]

/-- No event ever unsets title, mode, focusedTags or urgentTags. -/
theorem applyEv_mono (s : State) (e : Ev) :
    (s.title.isSome = true → (applyEv s e).title.isSome = true) ∧
    (s.mode.isSome = true → (applyEv s e).mode.isSome = true) ∧
    (s.focused.isSome = true → (applyEv s e).focused.isSome = true) ∧
    (s.urgent.isSome = true → (applyEv s e).urgent.isSome = true) := by
  cases e with
  | reg a =>
    rcases a with ⟨an, ai⟩
    simp only [applyEv, handleRegistry]
    split_ifs <;> simp
  | out eo => cases eo <;> simp [applyEv, handleOutputEvent]
  | seat es => cases es <;> simp [applyEv, handleSeatEvent]

/-- One dispatched event preserves four-field completeness. -/
theorem complete4_applyEv (s : State) (e : Ev) (h : complete4 s = true) :
    complete4 (applyEv s e) = true := by
  have hm := applyEv_mono s e
  simp only [complete4, Bool.and_eq_true] at h ⊢
  exact ⟨⟨⟨hm.1 h.1.1.1, hm.2.1 h.1.1.2⟩, hm.2.2.1 h.1.2⟩, hm.2.2.2 h.2⟩

/-- Any sequence of dispatched events preserves four-field completeness. -/
theorem complete4_foldl (es : List Ev) (s : State) (h : complete4 s = true) :
    complete4 (es.foldl applyEv s) = true := by
  induction es generalizing s with
  | nil => exact h
  | cons e rest ih => exact ih _ (complete4_applyEv s e h)

/-- The state the waiting loop hands to the projection passes the gate. -/
theorem waitLoop_gate (s : State) (bs : List (List Ev)) (s1 : State)
    (rest : List (List Ev)) (h : waitLoop s bs = some (s1, rest)) :
    gateBlocked s1 = false := by
  induction bs generalizing s with
  | nil =>
    simp only [waitLoop] at h
    by_cases hg : gateBlocked s
    · simp [hg] at h
    · simp only [hg, if_false, Option.some.injEq, Prod.mk.injEq] at h
      obtain ⟨rfl, rfl⟩ := h
      simpa using hg
  | cons b rest0 ih =>
    simp only [waitLoop] at h
    by_cases hg : gateBlocked s
    · rw [if_pos hg] at h
      exact ih _ h
    · rw [if_neg hg] at h
      obtain ⟨rfl, rfl⟩ := Option.some.inj h
      simpa using hg

/-- Length of the 32-entry bit expansion of a u32 payload. -/
theorem u32ToBits_length (t : Nat) : (u32ToBits t).length = 32 := by
  simp [u32ToBits]

/-- Entry `i` of the bit expansion is bit `i` of the payload. -/
theorem u32ToBits_getD (t i : Nat) (h : i < 32) :
    (u32ToBits t).getD i false = t.testBit i := by
  simp [u32ToBits, List.getD_eq_getElem?_getD, List.getElem?_map,
    List.getElem?_range, h]

/-! ## Claim theorems -/

/-- C1 counterexample: in a state where title, mode, focusedTags and
urgentTags have all been set and the dirty flag is true but layout has never
been set, the waiting loop still blocks (`gateBlocked` is true), so the loop
does NOT proceed to emit a snapshot: layout is not exempt from the gate. -/
theorem c1_counterexample :
    c1state.title.isSome = true ∧ c1state.mode.isSome = true ∧
    c1state.focused.isSome = true ∧ c1state.urgent.isSome = true ∧
    c1state.changed = true ∧ c1state.layout = none ∧
    gateBlocked c1state = true := by
  decide

/-- C1 (amended): the publication gate is exactly the predicate
`ready = title set ∧ mode set ∧ layout set ∧ focusedTags set ∧ urgentTags
set`, together with the dirty flag: the loop proceeds iff all five fields
(layout included) have been set and the state is dirty. -/
theorem c1_gate_exact (s : State) :
    gateBlocked s = false ↔
      s.title.isSome = true ∧ s.mode.isSome = true ∧ s.layout.isSome = true ∧
      s.focused.isSome = true ∧ s.urgent.isSome = true ∧ s.changed = true := by
  rcases s with ⟨sm, se, o, ch, t, mo, la, f, u⟩
  cases t <;> cases mo <;> cases la <;> cases f <;> cases u <;> cases ch <;>
    simp [gateBlocked]

/-- C2 counterexample: for the arrival order output, seat, status-manager the
binder does bind all three capabilities but issues zero output-status
creation requests, not exactly one as claimed. -/
theorem c2_counterexample :
    countOutputReqs (runAdverts [advO 1, advS 2, advM 3]).2 = 0 ∧
    (runAdverts [advO 1, advS 2, advM 3]).1.status_manager = some 3 ∧
    (runAdverts [advO 1, advS 2, advM 3]).1.seat = some 2 ∧
    (runAdverts [advO 1, advS 2, advM 3]).1.output = some 1 := by
  decide

/-- C2 (amended): all 6 permutations of the three advertisements reach the
identical final CapabilitySet and issue exactly one seat-status creation
request, but an output-status creation request is issued exactly once only
in the 3 permutations where the status manager arrives before the output,
and never in the 3 permutations where the output arrives first. -/
theorem c2_permutations (m s o : Nat) :
    binderOutcome m s o [advM m, advS s, advO o] 1 ∧
    binderOutcome m s o [advM m, advO o, advS s] 1 ∧
    binderOutcome m s o [advS s, advM m, advO o] 1 ∧
    binderOutcome m s o [advS s, advO o, advM m] 0 ∧
    binderOutcome m s o [advO o, advM m, advS s] 0 ∧
    binderOutcome m s o [advO o, advS s, advM m] 0 := by
  simp only [binderOutcome, capsOk]
  exact ⟨⟨⟨rfl, rfl, rfl⟩, rfl, rfl⟩, ⟨⟨rfl, rfl, rfl⟩, rfl, rfl⟩,
    ⟨⟨rfl, rfl, rfl⟩, rfl, rfl⟩, ⟨⟨rfl, rfl, rfl⟩, rfl, rfl⟩,
    ⟨⟨rfl, rfl, rfl⟩, rfl, rfl⟩, ⟨⟨rfl, rfl, rfl⟩, rfl, rfl⟩⟩

/-- C3: on a status-manager advertisement the binder stores the manager
handle, issues a seat-status creation request exactly when the seat is
already bound (against that bound seat), and never issues an output-status
creation request, whatever the rest of the state (in particular even when
the output is already bound). -/
theorem c3_manager_arrival (s : State) (n : Nat) :
    (handleRegistry s ⟨n, "zriver_status_manager_v1"⟩).1.status_manager = some n ∧
    (handleRegistry s ⟨n, "zriver_status_manager_v1"⟩).2 =
      s.seat.elim [] (fun se => [Request.createSeatStatus se]) ∧
    countOutputReqs (handleRegistry s ⟨n, "zriver_status_manager_v1"⟩).2 = 0 := by
  rcases s with ⟨sm, se, o, ch, t, mo, la, f, u⟩
  cases se <;> simp [handleRegistry, countOutputReqs]

/-- C4 counterexample: layout does regress to the unset state: from a state
where layout is set (and the whole gate passes), the LayoutNameClear event
returns layout to unset, and the gate's completeness is lost again. -/
theorem c4_counterexample :
    c4state.layout.isSome = true ∧ gateBlocked c4state = false ∧
    (handleOutputEvent c4state OutputEvent.layoutNameClear).layout = none ∧
    gateBlocked (handleOutputEvent c4state OutputEvent.layoutNameClear) = true := by
  decide

/-- C4 (amended): completeness is monotonic for title, mode, focusedTags and
urgentTags — no event ever unsets any of them, and once the four-field
completeness predicate holds it holds after any further event sequence — but
layout is excluded: LayoutNameClear returns it to the unset state. -/
theorem c4_monotone (s : State) (e : Ev) (es : List Ev) :
    (s.title.isSome = true → (applyEv s e).title.isSome = true) ∧
    (s.mode.isSome = true → (applyEv s e).mode.isSome = true) ∧
    (s.focused.isSome = true → (applyEv s e).focused.isSome = true) ∧
    (s.urgent.isSome = true → (applyEv s e).urgent.isSome = true) ∧
    (complete4 s = true → complete4 (es.foldl applyEv s) = true) := by
  have hm := applyEv_mono s e
  exact ⟨hm.1, hm.2.1, hm.2.2.1, hm.2.2.2, complete4_foldl es s⟩

/-- C4 witness: the monotonicity theorem applied to the fully set state and
the LayoutNameClear event. -/
theorem c4_monotone_witness :
    (applyEv c4state (Ev.out OutputEvent.layoutNameClear)).title.isSome = true ∧
    (applyEv c4state (Ev.out OutputEvent.layoutNameClear)).mode.isSome = true ∧
    (applyEv c4state (Ev.out OutputEvent.layoutNameClear)).focused.isSome = true ∧
    (applyEv c4state (Ev.out OutputEvent.layoutNameClear)).urgent.isSome = true ∧
    complete4 ([Ev.out OutputEvent.layoutNameClear].foldl applyEv c4state) = true := by
  have h := c4_monotone c4state (Ev.out OutputEvent.layoutNameClear)
    [Ev.out OutputEvent.layoutNameClear]
  exact ⟨h.1 (by decide), h.2.1 (by decide), h.2.2.1 (by decide),
    h.2.2.2.1 (by decide), h.2.2.2.2 (by decide)⟩

/-- C5: for a complete aggregate whose bit-sets came from u32 payloads and a
tag count N between 1 and 32, the emitted snapshot's focused and urgent
arrays have length exactly N and entry i (i < N) is bit i of the
corresponding payload; bits at index at least N are dropped by the
truncation. -/
theorem c5_snapshot_shape (s : State) (n ft ut : Nat) (m : Metadata)
    (h1 : 1 ≤ n) (h2 : n ≤ 32)
    (hf : s.focused = some (u32ToBits ft)) (hu : s.urgent = some (u32ToBits ut))
    (hm : tryIntoMetadata s = Except.ok m) :
    (truncateMeta n m).focused.length = n ∧ (truncateMeta n m).urgent.length = n ∧
    (∀ i, i < n → (truncateMeta n m).focused.getD i false = ft.testBit i) ∧
    (∀ i, i < n → (truncateMeta n m).urgent.getD i false = ut.testBit i) := by
  rcases s with ⟨sm, se, o, ch, t, mo, la, f, u⟩
  simp only at hf hu
  subst hf hu
  cases t with
  | none => simp [tryIntoMetadata] at hm
  | some tv =>
    cases mo with
    | none => simp [tryIntoMetadata] at hm
    | some mv =>
      simp only [tryIntoMetadata, Except.ok.injEq] at hm
      subst hm
      refine ⟨?_, ?_, ?_, ?_⟩
      · simp only [truncateMeta, List.length_take, u32ToBits_length]
        omega
      · simp only [truncateMeta, List.length_take, u32ToBits_length]
        omega
      · intro i hi
        have h32 : i < 32 := lt_of_lt_of_le hi h2
        show ((u32ToBits ft).take n).getD i false = ft.testBit i
        rw [List.getD_eq_getElem?_getD, List.getElem?_take]
        simp only [hi, if_true, ← List.getD_eq_getElem?_getD]
        exact u32ToBits_getD ft i h32
      · intro i hi
        have h32 : i < 32 := lt_of_lt_of_le hi h2
        show ((u32ToBits ut).take n).getD i false = ut.testBit i
        rw [List.getD_eq_getElem?_getD, List.getElem?_take]
        simp only [hi, if_true, ← List.getD_eq_getElem?_getD]
        exact u32ToBits_getD ut i h32

/-- C5 witness: the shape theorem applied to the concrete complete state with
focused payload 5 and urgent payload 2, tag count 9, at index 0. -/
theorem c5_snapshot_shape_witness :
    (truncateMeta 9 c5meta).focused.length = 9 ∧
    (truncateMeta 9 c5meta).urgent.length = 9 ∧
    (truncateMeta 9 c5meta).focused.getD 0 false = Nat.testBit 5 0 := by
  have h := c5_snapshot_shape c5state 9 5 2 c5meta (by decide) (by decide)
    rfl rfl rfl
  exact ⟨h.1, h.2.1, h.2.2.1 0 (by decide)⟩

/-- C7: whenever the waiting loop's exit condition holds (all fields it
checks are set, dirty included), the aggregate-to-snapshot conversion
succeeds: the MissingTitle, MissingMode, MissingFocused and MissingUrgent
branches are unreachable from the gate. -/
theorem c7_projection_total (s : State) (h : gateBlocked s = false) :
    (tryIntoMetadata s).isOk = true := by
  obtain ⟨ht, hmo, _, hf, hu, _⟩ := gate_false_fields s h
  exact tryIntoMetadata_ok s ht hmo hu hf

/-- C7 witness: the totality theorem applied to a concrete gate-passing
state. -/
theorem c7_projection_total_witness :
    gateBlocked c7state = false ∧ (tryIntoMetadata c7state).isOk = true :=
  ⟨by decide, c7_projection_total c7state (by decide)⟩

/-- C8: in one-shot mode (watch flag false), whenever the publication loop
terminates it has emitted exactly one snapshot: the output list of every
terminating run has length 1, whatever the event stream, initial state, tag
count or fuel. -/
theorem c8_one_shot (n fuel : Nat) (s : State) (bs : List (List Ev))
    (out : List Metadata) (h : pubLoop fuel false n s bs = some out) :
    out.length = 1 := by
  cases fuel with
  | zero => simp [pubLoop] at h
  | succ fuel =>
    rw [pubLoop] at h
    split at h
    · simp at h
    · rename_i s1 rest hw
      have hg := waitLoop_gate s bs s1 rest hw
      have hfields := gate_false_fields s1 hg
      split at h
      · rename_i e hti
        have hok := tryIntoMetadata_ok s1 hfields.1 hfields.2.1
          hfields.2.2.2.2.1 hfields.2.2.2.1
        rw [hti] at hok
        simp [Except.isOk, Except.toBool] at hok
      · rename_i m0 hti
        have hch : s1.changed = true := hfields.2.2.2.2.2
        simp only [hch, if_true, Bool.false_eq_true, if_false,
          Option.some.injEq] at h
        subst h
        rfl

/-- C8 witness: a concrete one-shot run over a single dispatch round emits
exactly the one expected snapshot. -/
theorem c8_one_shot_witness :
    pubLoop 1 false 9 initialState [c8batch] = some c8out ∧ c8out.length = 1 :=
  ⟨by decide, c8_one_shot 9 1 initialState [c8batch] c8out (by decide)⟩

/-- C6: every event delivered on an output-status or seat-status object sets
the dirty flag to true, independently of the state (hence independently of
whether the delivered value equals the stored one). -/
theorem c6_every_event_sets_dirty (s : State) (eo : OutputEvent) (es : SeatEvent) :
    (handleOutputEvent s eo).changed = true ∧ (handleSeatEvent s es).changed = true := by
  cases eo <;> cases es <;> exact ⟨rfl, rfl⟩

/-- C9 counterexample: after a first wl_output advertisement binds the output
handle born of advertisement 1, a second wl_output advertisement rebinds it,
replacing the stored handle by the one born of advertisement 2. -/
theorem c9_counterexample :
    (handleRegistry initialState (advO 1)).1.output = some 1 ∧
    (handleRegistry (handleRegistry initialState (advO 1)).1 (advO 2)).1.output = some 2 := by
  decide

/-- C9 (amended): capability binding never regresses to unbound — after any
advertisement each handle is bound iff it was already bound or the
advertisement is for that interface — but a repeated advertisement of an
interface rebinds: the stored handle is always replaced by the newly bound
one. -/
theorem c9_bound_stays_bound (s : State) (a : Advert) (n : Nat) :
    ((handleRegistry s a).1.output.isSome =
      (s.output.isSome || (a.interface == "wl_output"))) ∧
    ((handleRegistry s a).1.seat.isSome =
      (s.seat.isSome || (a.interface == "wl_seat"))) ∧
    ((handleRegistry s a).1.status_manager.isSome =
      (s.status_manager.isSome || (a.interface == "zriver_status_manager_v1"))) ∧
    ((handleRegistry s (advO n)).1.output = some n) ∧
    ((handleRegistry s (advS n)).1.seat = some n) ∧
    ((handleRegistry s (advM n)).1.status_manager = some n) := by
  rcases a with ⟨an, ai⟩
  by_cases h1 : ai = "wl_output" <;> by_cases h2 : ai = "wl_seat" <;>
    by_cases h3 : ai = "zriver_status_manager_v1" <;>
    simp_all [handleRegistry, advO, advS, advM]

/-- C10: an event kind hitting the wildcard arm of either status dispatcher
leaves every aggregate field unchanged but still sets the dirty flag: the
handler is exactly the dirty-marking update. -/
theorem c10_wildcard_sets_dirty (s : State) :
    handleOutputEvent s OutputEvent.other = { s with changed := true } ∧
    handleSeatEvent s SeatEvent.other = { s with changed := true } := by
  exact ⟨rfl, rfl⟩

end Flow
